import Mathlib

/-!
Shallow embedding of the protonvpn-cli daemon core (wire protocol,
connection state machine, killswitch orchestration) and proofs of the
specification claims about it.

The definitions translate the Rust sources:
  * `src/protocol.rs`   — wire protocol (`Request` encode/decode)
  * `src/daemon.rs`     — request handlers over shared daemon state
  * `src/killswitch.rs` — iptables backup/apply/restore model
  * `src/client/openvpn.rs` — tunnel configuration construction
Side effects (process control, firewall tool invocations, subprocess
spawn) are modelled as an explicit environment of outcomes plus an
event trace recording each external invocation in order.
-/

namespace ProtonVPN

deriving instance DecidableEq for Except

/-- Process identifier (`Pid(u32)` in `src/client/mod.rs`). -/
abbrev Pid := Nat

/-- IPv4 entry address; the daemon treats addresses opaquely, so we model
them as an abstract numeric value. -/
abbrev Ipv4Addr := Nat

/-- `Protocol` from `src/client/openvpn.rs` (derive ValueEnum; Udp default). -/
inductive Protocol
  | udp
  | tcp
deriving DecidableEq, Repr

/-- The `Display` impl for `Protocol` in `src/client/openvpn.rs`. -/
def Protocol.render : Protocol → String
  | .udp => "udp"
  | .tcp => "tcp"

/-- ASCII lower-casing of one character (Rust `eq_ignore_ascii_case`
folds ASCII letters only). -/
def asciiLower (c : Char) : Char :=
  if 'A' ≤ c ∧ c ≤ 'Z' then Char.ofNat (c.toNat + 32) else c

/-- ASCII lower-casing of a string. -/
def strLower (s : String) : String :=
  String.mk (s.data.map asciiLower)

/-- clap's derived `ValueEnum::from_str` with `ignore_case = true`:
ASCII-case-insensitive match of the variant value names "udp" / "tcp". -/
def Protocol.from_str (s : String) : Option Protocol :=
  if strLower s = "udp" then some .udp
  else if strLower s = "tcp" then some .tcp
  else none

/-- `Request` from `src/protocol.rs`. -/
inductive Request
  | status
  | disconnect
  | connect (serverId : String) (protocol : Protocol)
  | killswitch (enable : Bool)
deriving DecidableEq, Repr

/-- Outcome of deserialization: `anyhow::Result` success, `anyhow::bail!`
error carrying the message, or a Rust panic (`.expect(msg)` on a failed
value), which aborts instead of returning. -/
inductive DecodeResult (α : Type)
  | ok (r : α)
  | err (msg : String)
  | crash (msg : String)
deriving DecidableEq, Repr

/-- `split_message` from `src/protocol.rs`: split the message on `:`
(Rust `str::split(':')`, which yields at least one piece). The Rust code
then takes piece 0 as the command and the rest as arguments; here we
return the whole list of pieces. -/
def splitMessage (s : String) : List String :=
  (s.data.splitOn ':').map String.mk

/-- `<Request as SocketProtocol>::deserialize` from `src/protocol.rs`.
Matching a `&str` against literal patterns is an equality chain; the
`.expect("valid protocol")` on an unrecognized protocol text is a panic,
modelled by the `crash` outcome. -/
def Request.deserialize (data : String) : DecodeResult Request :=
  match splitMessage data with
  | [] => .crash "an instruction command"
  | command :: args =>
    if command = "status" then .ok .status
    else if command = "disconnect" then .ok .disconnect
    else if command = "connect" then
      match args with
      | [server_id, protocol] =>
        match Protocol.from_str protocol with
        | some p => .ok (.connect server_id p)
        | none => .crash "valid protocol"
      | _ => .err "incorrect arguments"
    else if command = "killswitch" then
      match args with
      | ["true"] => .ok (.killswitch true)
      | ["false"] => .ok (.killswitch false)
      | _ => .err "incorrect arguments"
    else .err "no command matched"

/-- `<Request as SocketProtocol>::serialize` from `src/protocol.rs`
(the produced byte vector, read back as a string). -/
def Request.serialize : Request → String
  | .status => "status"
  | .connect id p => "connect:" ++ id ++ ":" ++ p.render
  | .disconnect => "disconnect"
  | .killswitch e => "killswitch:" ++ (if e then "true" else "false")

/-! ## Server directory and tunnel configuration (`src/api`, `src/client/openvpn.rs`) -/

/-- `LogicalServer` from `src/api/types.rs`, restricted to the fields the
daemon core reads: identifier, display name, and the entry addresses of
its physical servers (`entry_ips`). -/
structure LogicalServer where
  id : String
  name : String
  entry_ips : List Ipv4Addr
deriving DecidableEq, Repr

/-- The `DEFAULT_PORTS` constant of `src/client/openvpn.rs`. -/
def DEFAULT_PORTS : List Nat := [5060, 4569, 80, 1194, 51820]

/-- `Remote` from `src/client/openvpn.rs`: one tunnel endpoint. -/
structure Remote where
  ip : Ipv4Addr
  port : Nat
deriving DecidableEq, Repr

/-- `Remote::from_ip` from `src/client/openvpn.rs`: pair the address with
every port of the fixed `DEFAULT_PORTS` list. -/
def Remote.from_ip (ip : Ipv4Addr) : List Remote :=
  DEFAULT_PORTS.map (fun port => { ip := ip, port := port })

/-- `ConfigTemplate` from `src/client/openvpn.rs`. -/
structure ConfigTemplate where
  remotes : List Remote
  protocol : Protocol
  credentials_path : String
  update_resolv_conf : Option String
deriving DecidableEq, Repr

/-- `create_config` from `src/client/openvpn.rs`: the remote list is
`server.entry_ips().into_iter().flat_map(Remote::from_ip)`; the
credentials path comes from the configuration (error when absent) and
the DNS helper path is platform dependent (passed in here). -/
def create_config (server : LogicalServer) (protocol : Protocol)
    (credentials_path : Option String) (update_resolv_conf : Option String) :
    Except String ConfigTemplate :=
  let remotes := (server.entry_ips.map Remote.from_ip).flatten
  match credentials_path with
  | none => .error "No credentials path specified in configuration."
  | some cp =>
      .ok { remotes := remotes, protocol := protocol,
            credentials_path := cp, update_resolv_conf := update_resolv_conf }

/-- Modelled from the spec: `Protocol::default_ports` is called from
`src/killswitch.rs` but its definition is not among the provided source
files. The spec says each variant owns a fixed, ordered list of default
ports, UDP with 5 ports and TCP with 3. UDP's list is taken to be the
`DEFAULT_PORTS` constant of `src/client/openvpn.rs`; representative
values stand in for TCP's three ports (the claims below depend only on
the lengths). -/
def Protocol.default_ports : Protocol → List Nat
  | .udp => [5060, 4569, 80, 1194, 51820]
  | .tcp => [443, 5995, 8443]

/-- The endpoint list exactly as the specification words it for claim C5:
the full cross product of the server's entry addresses with the chosen
protocol's own default port list. Stated from the spec, to be compared
with `create_config`. -/
def specEndpointList (server : LogicalServer) (protocol : Protocol) : List Remote :=
  (server.entry_ips.map
    (fun ip => (Protocol.default_ports protocol).map (fun port => Remote.mk ip port))).flatten

/-! ## Daemon state, environment and event traces (`src/daemon.rs`)

External side effects are recorded in order in an event trace; their
outcomes (success/failure of firewall invocations, of process signals,
and the pid produced by a successful tunnel spawn) are supplied by an
environment record. -/

/-- `ActiveServer` from `src/daemon.rs`. -/
structure ActiveServer where
  pid : Pid
  server : LogicalServer
  protocol : Protocol
deriving DecidableEq, Repr

/-- The daemon's shared state (`State` in `src/daemon.rs`): the server
directory, the optional active connection, and the killswitch flag. -/
structure DaemonState where
  servers : List LogicalServer
  active_server : Option ActiveServer
  killswitch_enabled : Bool
deriving DecidableEq, Repr

/-- One external side effect performed by a request handler, in order. -/
inductive Event
  | applyRules (protocol : Protocol)
  | restoreRules
  | terminate (pid : Pid)
  | forceKill (pid : Pid)
  | launch (serverId : String) (protocol : Protocol)
  | removePidCache
deriving DecidableEq, Repr

/-- Outcomes of the external world: whether `killswitch::enable` /
`killswitch::disable` succeed, whether sending SIGTERM / SIGKILL to a
pid succeeds (`utils::kill_process`), and the pid delivered by a
successful `openvpn::connect` spawn (`none` = spawn failure). -/
structure Env where
  enable_ok : Protocol → Bool
  disable_ok : Bool
  term_ok : Pid → Bool
  kill_ok : Pid → Bool
  spawn : LogicalServer → Protocol → Option Pid

/-- `state.servers.get(server_id)`: the id-keyed hashmap lookup of
`src/daemon.rs`, modelled over the underlying server list. -/
def findServer (servers : List LogicalServer) (server_id : String) : Option LogicalServer :=
  servers.find? (fun s => s.id == server_id)

/-- Tail of `handle_connect_request`: `openvpn::connect` spawns the
subprocess and on success the new `ActiveServer` is stored. -/
def connect_spawn (env : Env) (st : DaemonState) (evs : List Event)
    (ls : LogicalServer) (protocol : Protocol) :
    DaemonState × List Event × Except String Unit :=
  match env.spawn ls protocol with
  | none => (st, evs ++ [Event.launch ls.id protocol], .error "error connecting with openvpn")
  | some pid =>
      ({ st with active_server := some ⟨pid, ls, protocol⟩ },
       evs ++ [Event.launch ls.id protocol], .ok ())

/-- Middle of `handle_connect_request`: terminate the old subprocess
(`utils::kill_process(active.pid, Term)?`), then spawn the new one. -/
def connect_kill (env : Env) (st : DaemonState) (evs : List Event)
    (active : ActiveServer) (ls : LogicalServer) (protocol : Protocol) :
    DaemonState × List Event × Except String Unit :=
  if env.term_ok active.pid then
    connect_spawn env st (evs ++ [Event.terminate active.pid]) ls protocol
  else (st, evs ++ [Event.terminate active.pid], .error "Failed to send out SIGTERM")

/-- `handle_connect_request` from `src/daemon.rs`: unknown server id is
report-and-ignore; same server and protocol is a no-op; a differing
protocol with the killswitch enabled re-applies firewall rules for the
new protocol (`killswitch::enable(protocol)?`) before the old process is
terminated; then the new subprocess is spawned and the state updated. -/
def handle_connect_request (env : Env) (server_id : String) (protocol : Protocol)
    (st : DaemonState) : DaemonState × List Event × Except String Unit :=
  match findServer st.servers server_id with
  | none => (st, [], .ok ())
  | some ls =>
    match st.active_server with
    | none => connect_spawn env st [] ls protocol
    | some active =>
      if server_id = active.server.id ∧ protocol = active.protocol then
        (st, [], .ok ())
      else if protocol ≠ active.protocol ∧ st.killswitch_enabled then
        if env.enable_ok protocol then
          connect_kill env st [Event.applyRules protocol] active ls protocol
        else (st, [Event.applyRules protocol], .error "killswitch enable failed")
      else
        connect_kill env st [] active ls protocol

/-- `handle_disconnect_request` from `src/daemon.rs`: no-op when idle;
otherwise `openvpn::disconnect` sends SIGTERM (error surfaced, state
untouched on failure), removes the cached pid record, and the
`ActiveServer` is cleared. -/
def handle_disconnect_request (env : Env) (st : DaemonState) :
    DaemonState × List Event × Except String Unit :=
  match st.active_server with
  | none => (st, [], .ok ())
  | some active =>
    if env.term_ok active.pid then
      ({ st with active_server := none },
       [Event.terminate active.pid, Event.removePidCache], .ok ())
    else (st, [Event.terminate active.pid], .error "Failed to send out SIGTERM")

/-- `handle_killswitch_request` from `src/daemon.rs`: with no active
connection it bails before touching the firewall; otherwise it applies
(`killswitch::enable`) or restores (`killswitch::disable`) rules, and
only after that succeeds is `killswitch_enabled` updated. -/
def handle_killswitch_request (env : Env) (st : DaemonState) (enable : Bool) :
    DaemonState × List Event × Except String Unit :=
  match st.active_server with
  | some server =>
    if enable then
      if env.enable_ok server.protocol then
        ({ st with killswitch_enabled := enable }, [Event.applyRules server.protocol], .ok ())
      else (st, [Event.applyRules server.protocol], .error "killswitch enable failed")
    else
      if env.disable_ok then
        ({ st with killswitch_enabled := enable }, [Event.restoreRules], .ok ())
      else (st, [Event.restoreRules], .error "killswitch disable failed")
  | none => (st, [], .error "Can't enable killswitch as there is no active vpn connection")

/-- `cleanup_vpn_process` from `src/daemon.rs`: send SIGTERM to the
tracked process; on failure escalate to SIGKILL
(`utils::kill_process(pid, Kill)?`), whose failure is the only error. -/
def cleanup_vpn_process (env : Env) (active_server : Option ActiveServer) :
    List Event × Except String Unit :=
  match active_server with
  | some active =>
    if env.term_ok active.pid then ([Event.terminate active.pid], .ok ())
    else if env.kill_ok active.pid then
      ([Event.terminate active.pid, Event.forceKill active.pid], .ok ())
    else ([Event.terminate active.pid, Event.forceKill active.pid], .error "Unable to stop process")
  | none => ([], .ok ())

/-- One iteration of the signal-handler loop in `spawn_signal_handler`
(`src/daemon.rs`): on SIGINT/SIGTERM it snapshots the active connection,
calls `killswitch::disable` (failure only logged), runs
`cleanup_vpn_process` once (failure only logged), and exits the process
with status 0. The returned number is the process exit status. -/
def signal_handler_iteration (env : Env) (st : DaemonState) : List Event × Nat :=
  (Event.restoreRules :: (cleanup_vpn_process env st.active_server).1, 0)

/-- Number of subprocess launches in a trace. -/
def countLaunches (evs : List Event) : Nat :=
  evs.countP (fun e => match e with | .launch _ _ => true | _ => false)

/-- Number of termination-signal sends (SIGTERM attempts) in a trace. -/
def countTerminations (evs : List Event) : Nat :=
  evs.countP (fun e => match e with | .terminate _ => true | _ => false)

/-! ## Killswitch firewall file model (`src/killswitch.rs`, linux backend) -/

/-- The slice of the filesystem the killswitch touches: the content of
the `iptables.backup` file in the cache directory (`none` = absent). -/
structure Fs where
  backup : Option String
deriving DecidableEq, Repr

/-- `Iptables::backup` from `src/killswitch.rs`: if the backup file
already exists, refuse to overwrite and return success; otherwise dump
the current ruleset (`iptables-save`, outcome `save_ok`, content `cur`)
into the backup file. -/
def Iptables.backup (save_ok : Bool) (cur : String) (fs : Fs) : Fs × Except String Unit :=
  match fs.backup with
  | some _ => (fs, .ok ())
  | none =>
    if save_ok then ({ backup := some cur }, .ok ())
    else (fs, .error "unable to dump iptables rules")

/-- `killswitch::enable` (linux) from `src/killswitch.rs`, restricted to
its effect on the backup file: run `Iptables::backup` first (`?`), then
build and apply the rule list (`apply_ok`), which never touches the
backup file. -/
def killswitch_enable (save_ok apply_ok : Bool) (cur : String) (fs : Fs) :
    Fs × Except String Unit :=
  match Iptables.backup save_ok cur fs with
  | (fs1, .error e) => (fs1, .error e)
  | (fs1, .ok ()) =>
    if apply_ok then (fs1, .ok ()) else (fs1, .error "apply failed")

/-! ## Concrete fixtures used by witnesses and counterexamples -/

/-- A sample server with one entry address. -/
def sampleServer : LogicalServer :=
  { id := "server1", name := "NL#1", entry_ips := [101] }

/-- A second sample server. -/
def sampleServer2 : LogicalServer :=
  { id := "server2", name := "NL#2", entry_ips := [202] }

/-- An environment where every external operation succeeds and spawning
yields pid 4242. -/
def envOk : Env :=
  { enable_ok := fun _ => true, disable_ok := true,
    term_ok := fun _ => true, kill_ok := fun _ => true,
    spawn := fun _ _ => some 4242 }

/-- An environment where every external operation fails. -/
def envFail : Env :=
  { enable_ok := fun _ => false, disable_ok := false,
    term_ok := fun _ => false, kill_ok := fun _ => false,
    spawn := fun _ _ => none }

/-- A daemon state with no active connection. -/
def stIdle : DaemonState :=
  { servers := [sampleServer], active_server := none, killswitch_enabled := false }

/-- A daemon state connected to `sampleServer` over UDP (pid 7),
killswitch disabled. -/
def stActive : DaemonState :=
  { servers := [sampleServer], active_server := some ⟨7, sampleServer, .udp⟩,
    killswitch_enabled := false }

/-- A daemon state connected to `sampleServer` over UDP (pid 7),
killswitch enabled. -/
def stKs : DaemonState :=
  { servers := [sampleServer], active_server := some ⟨7, sampleServer, .udp⟩,
    killswitch_enabled := true }

/-- The configuration `create_config` produces for `sampleServer`/UDP. -/
def sampleConfig : ConfigTemplate :=
  { remotes := Remote.from_ip 101, protocol := .udp,
    credentials_path := "/etc/protonvpn/creds", update_resolv_conf := none }

/-- The constraint under which the wire grammar is lossless: the spec
documents (does not enforce) that server identifiers must not contain
the `:` delimiter. -/
def Request.delimiterFree : Request → Prop
  | .connect id _ => ':' ∉ id.data
  | _ => True

/-! ## Helper lemmas -/


theorem mk_data (s : String) : String.mk s.data = s := rfl

theorem splitMessage_connect (id pr : String) (h : ':' ∉ id.data) (hp : ':' ∉ pr.data) :
    splitMessage ("connect:" ++ id ++ ":" ++ pr) = ["connect", id, pr] := by
  unfold splitMessage
  have e : ("connect:" ++ id ++ ":" ++ pr).data
      = List.intercalate [':'] ["connect".data, id.data, pr.data] := by
    show "connect:".data ++ id.data ++ ":".data ++ pr.data = _
    simp [List.intercalate, List.intersperse]
  rw [e, List.splitOn_intercalate]
  · simp [mk_data]
  · intro l hl
    simp at hl
    rcases hl with rfl | rfl | rfl
    · decide
    · exact h
    · exact hp
  · simp

theorem splitMessage_ne_nil (s : String) : splitMessage s ≠ [] := by
  unfold splitMessage
  intro h
  exact List.splitOnP_ne_nil _ s.data (by simpa using h)

theorem findServer_id {servers : List LogicalServer} {server_id : String} {ls : LogicalServer}
    (h : findServer servers server_id = some ls) : ls.id = server_id := by
  have := List.find?_some h
  simpa using this

theorem head_mem_of_append_cons {α : Type} {a b : α} {rest pre suf : List α}
    (h : pre ++ b :: suf = a :: rest) (hne : b ≠ a) : a ∈ pre := by
  cases pre with
  | nil => simp at h; exact absurd h.1 hne
  | cons x pre' =>
    simp at h
    exact h.1 ▸ List.mem_cons_self x pre'

/-- C1: when a connect request is handled while an active connection with a
different protocol exists and the killswitch is enabled, every termination
signal in the run's trace is strictly preceded by a re-application of the
firewall rules for the new protocol. -/
theorem connect_killswitch_before_terminate
    (env : Env) (st : DaemonState) (server_id : String) (protocol : Protocol)
    (active : ActiveServer) (pre suf : List Event) (pid : Pid)
    (hact : st.active_server = some active)
    (hproto : protocol ≠ active.protocol)
    (hks : st.killswitch_enabled = true)
    (hsplit : (handle_connect_request env server_id protocol st).2.1
        = pre ++ Event.terminate pid :: suf) :
    Event.applyRules protocol ∈ pre := by
  cases hf : findServer st.servers server_id with
  | none =>
    simp only [handle_connect_request, hact, hf] at hsplit
    simp at hsplit
  | some ls =>
    simp only [handle_connect_request, hact, hf] at hsplit
    rw [if_neg (fun hc => hproto hc.2), if_pos ⟨hproto, hks⟩] at hsplit
    cases he : env.enable_ok protocol with
    | false =>
      rw [he] at hsplit
      simp at hsplit
      have hmem : Event.terminate pid ∈ [Event.applyRules protocol] := by
        rw [hsplit]; exact List.mem_append_right _ (List.mem_cons_self _ _)
      simp at hmem
    | true =>
      rw [he] at hsplit
      simp only [if_true] at hsplit
      unfold connect_kill at hsplit
      cases ht : env.term_ok active.pid with
      | true =>
        rw [ht] at hsplit
        simp only [if_true] at hsplit
        unfold connect_spawn at hsplit
        cases hs : env.spawn ls protocol with
        | none =>
          rw [hs] at hsplit
          simp only [List.cons_append, List.nil_append] at hsplit
          exact head_mem_of_append_cons hsplit.symm (by simp)
        | some newpid =>
          rw [hs] at hsplit
          simp only [List.cons_append, List.nil_append] at hsplit
          exact head_mem_of_append_cons hsplit.symm (by simp)
      | false =>
        rw [ht] at hsplit
        simp only [if_neg, List.cons_append, List.nil_append, Bool.false_eq_true, if_false] at hsplit
        exact head_mem_of_append_cons hsplit.symm (by simp)


/-- C6: connecting to the already-active server with the already-active
protocol is a no-op success (no events, no state change); a successful
connect is idempotent, and any single connect launches at most one
subprocess — so the same `Connect` twice performs exactly one launch. -/
theorem connect_idempotent (env : Env) (st : DaemonState)
    (server_id : String) (protocol : Protocol) :
    (∀ active, st.active_server = some active → active.server.id = server_id →
        active.protocol = protocol →
        handle_connect_request env server_id protocol st = (st, [], .ok ())) ∧
    ((handle_connect_request env server_id protocol st).2.2 = .ok () →
        handle_connect_request env server_id protocol
            (handle_connect_request env server_id protocol st).1
          = ((handle_connect_request env server_id protocol st).1, [], .ok ())) ∧
    countLaunches (handle_connect_request env server_id protocol st).2.1 ≤ 1 := by
  refine ⟨?_, ?_, ?_⟩
  · intro active hact hid hp
    cases hf : findServer st.servers server_id with
    | none => simp [handle_connect_request, hf]
    | some ls =>
      simp only [handle_connect_request, hf, hact]
      rw [if_pos ⟨hid.symm, hp.symm⟩]
  · intro hok
    cases hf : findServer st.servers server_id with
    | none =>
      have e1 : handle_connect_request env server_id protocol st = (st, [], .ok ()) := by
        simp [handle_connect_request, hf]
      rw [e1]
      exact e1
    | some ls =>
      have hlid : ls.id = server_id := findServer_id hf
      cases hact : st.active_server with
      | none =>
        cases hs : env.spawn ls protocol with
        | none =>
          exfalso
          simp [handle_connect_request, hf, hact, connect_spawn, hs] at hok
        | some pid =>
          have e1 : handle_connect_request env server_id protocol st
              = ({ st with active_server := some ⟨pid, ls, protocol⟩ },
                 [Event.launch ls.id protocol], .ok ()) := by
            simp [handle_connect_request, hf, hact, connect_spawn, hs]
          rw [e1]
          simp [handle_connect_request, hf, hlid]
      | some active =>
        by_cases hsame : server_id = active.server.id ∧ protocol = active.protocol
        · have e1 : handle_connect_request env server_id protocol st = (st, [], .ok ()) := by
            simp only [handle_connect_request, hf, hact]
            rw [if_pos hsame]
          rw [e1]
          exact e1
        · by_cases hkse : protocol ≠ active.protocol ∧ st.killswitch_enabled
          · cases he : env.enable_ok protocol with
            | false =>
              exfalso
              simp only [handle_connect_request, hf, hact] at hok
              rw [if_neg hsame, if_pos hkse, he] at hok
              simp at hok
            | true =>
              cases ht : env.term_ok active.pid with
              | false =>
                exfalso
                simp only [handle_connect_request, hf, hact] at hok
                rw [if_neg hsame, if_pos hkse, he] at hok
                simp [connect_kill, ht] at hok
              | true =>
                cases hs : env.spawn ls protocol with
                | none =>
                  exfalso
                  simp only [handle_connect_request, hf, hact] at hok
                  rw [if_neg hsame, if_pos hkse, he] at hok
                  simp [connect_kill, ht, connect_spawn, hs] at hok
                | some pid =>
                  have e1 : handle_connect_request env server_id protocol st
                      = ({ st with active_server := some ⟨pid, ls, protocol⟩ },
                         [Event.applyRules protocol, Event.terminate active.pid,
                          Event.launch ls.id protocol], .ok ()) := by
                    simp only [handle_connect_request, hf, hact]
                    rw [if_neg hsame, if_pos hkse, he]
                    simp [connect_kill, ht, connect_spawn, hs]
                  rw [e1]
                  simp [handle_connect_request, hf, hlid]
          · cases ht : env.term_ok active.pid with
            | false =>
              exfalso
              simp only [handle_connect_request, hf, hact] at hok
              rw [if_neg hsame, if_neg hkse] at hok
              simp [connect_kill, ht] at hok
            | true =>
              cases hs : env.spawn ls protocol with
              | none =>
                exfalso
                simp only [handle_connect_request, hf, hact] at hok
                rw [if_neg hsame, if_neg hkse] at hok
                simp [connect_kill, ht, connect_spawn, hs] at hok
              | some pid =>
                have e1 : handle_connect_request env server_id protocol st
                    = ({ st with active_server := some ⟨pid, ls, protocol⟩ },
                       [Event.terminate active.pid, Event.launch ls.id protocol], .ok ()) := by
                  simp only [handle_connect_request, hf, hact]
                  rw [if_neg hsame, if_neg hkse]
                  simp [connect_kill, ht, connect_spawn, hs]
                rw [e1]
                simp [handle_connect_request, hf, hlid]
  · cases hf : findServer st.servers server_id with
    | none => simp [handle_connect_request, hf, countLaunches]
    | some ls =>
      cases hact : st.active_server with
      | none =>
        cases hs : env.spawn ls protocol <;>
          simp [handle_connect_request, hf, hact, connect_spawn, hs, countLaunches]
      | some active =>
        by_cases hsame : server_id = active.server.id ∧ protocol = active.protocol
        · simp only [handle_connect_request, hf, hact]
          rw [if_pos hsame]
          simp [countLaunches]
        · by_cases hkse : protocol ≠ active.protocol ∧ st.killswitch_enabled
          · simp only [handle_connect_request, hf, hact]
            rw [if_neg hsame, if_pos hkse]
            cases he : env.enable_ok protocol <;>
              cases ht : env.term_ok active.pid <;>
                cases hs : env.spawn ls protocol <;>
                  simp [connect_kill, connect_spawn, countLaunches, ht, hs]
          · simp only [handle_connect_request, hf, hact]
            rw [if_neg hsame, if_neg hkse]
            cases ht : env.term_ok active.pid <;>
              cases hs : env.spawn ls protocol <;>
                simp [connect_kill, connect_spawn, countLaunches, ht, hs]

/-- C7: a killswitch toggle updates `killswitch_enabled` only after the
firewall operation succeeds: every error outcome leaves the whole state
unchanged, enabling with no active connection is an error, and on
success the flag equals the requested value. -/
theorem killswitch_state_only_on_success (env : Env) (st : DaemonState) (enable : Bool) :
    (∀ msg, (handle_killswitch_request env st enable).2.2 = .error msg →
        (handle_killswitch_request env st enable).1 = st) ∧
    (st.active_server = none → enable = true →
        ∃ msg, (handle_killswitch_request env st enable).2.2 = .error msg) ∧
    ((handle_killswitch_request env st enable).2.2 = .ok () →
        (handle_killswitch_request env st enable).1.killswitch_enabled = enable) := by
  cases hact : st.active_server with
  | none => simp [handle_killswitch_request, hact]
  | some server =>
    cases enable with
    | true =>
      cases he : env.enable_ok server.protocol <;>
        simp [handle_killswitch_request, hact, he]
    | false =>
      cases hd : env.disable_ok <;>
        simp [handle_killswitch_request, hact, hd]

/-- C7 witness: with a failing firewall backend, enabling over an active
connection leaves the state untouched. -/
theorem killswitch_state_only_on_success_witness :
    (handle_killswitch_request envFail stActive true).1 = stActive :=
  (killswitch_state_only_on_success envFail stActive true).1
    "killswitch enable failed" (by decide)

/-- C10: with no active connection, a killswitch request for either flag
value fails with the bail message, invokes no firewall operation, and
leaves the state unchanged. -/
theorem killswitch_requires_connection (env : Env) (st : DaemonState) (enable : Bool)
    (h : st.active_server = none) :
    handle_killswitch_request env st enable
      = (st, [], .error "Can't enable killswitch as there is no active vpn connection") := by
  simp [handle_killswitch_request, h]

/-- C10 witness: disabling with no active connection errors. -/
theorem killswitch_requires_connection_witness :
    handle_killswitch_request envOk stIdle false
      = (stIdle, [], .error "Can't enable killswitch as there is no active vpn connection") :=
  killswitch_requires_connection envOk stIdle false rfl

/-- C9: disconnect while idle is a no-op success with no process action;
when signaling the active process fails, disconnect surfaces the error
and leaves the state unchanged. -/
theorem disconnect_idle_noop_failure_preserves (env : Env) (st : DaemonState) :
    (st.active_server = none → handle_disconnect_request env st = (st, [], .ok ())) ∧
    (∀ active, st.active_server = some active → env.term_ok active.pid = false →
        (handle_disconnect_request env st).1 = st ∧
        (handle_disconnect_request env st).2.2 = .error "Failed to send out SIGTERM") := by
  constructor
  · intro h
    simp [handle_disconnect_request, h]
  · intro active hact ht
    simp [handle_disconnect_request, hact, ht]

/-- C9 witness: idle disconnect is a no-op success. -/
theorem disconnect_idle_noop_failure_preserves_witness :
    handle_disconnect_request envOk stIdle = (stIdle, [], .ok ()) :=
  (disconnect_idle_noop_failure_preserves envOk stIdle).1 rfl

/-- C1 witness: connecting to the same server over TCP while connected
over UDP with the killswitch enabled produces the trace
apply-rules, terminate, launch — the rule application precedes the
termination signal. -/
theorem connect_killswitch_before_terminate_witness :
    (handle_connect_request envOk "server1" Protocol.tcp stKs).2.1
      = [Event.applyRules .tcp, Event.terminate 7, Event.launch "server1" .tcp]
    ∧ Event.applyRules Protocol.tcp ∈ [Event.applyRules Protocol.tcp] :=
  ⟨by decide,
   connect_killswitch_before_terminate envOk stKs "server1" Protocol.tcp
     ⟨7, sampleServer, .udp⟩ [Event.applyRules Protocol.tcp]
     [Event.launch "server1" Protocol.tcp] 7 rfl (by decide) rfl (by decide)⟩

/-- C6 witness: from the idle state, the same connect twice launches the
subprocess exactly once (second call is a silent no-op). -/
theorem connect_idempotent_witness :
    handle_connect_request envOk "server1" Protocol.udp
        (handle_connect_request envOk "server1" Protocol.udp stIdle).1
      = ((handle_connect_request envOk "server1" Protocol.udp stIdle).1, [], .ok ()) ∧
    countLaunches (handle_connect_request envOk "server1" Protocol.udp stIdle).2.1 ≤ 1 :=
  ⟨(connect_idempotent envOk stIdle "server1" Protocol.udp).2.1 (by decide),
   (connect_idempotent envOk stIdle "server1" Protocol.udp).2.2⟩

/-- C8 counterexample: in the signal handler, even when both the SIGTERM
and the escalated SIGKILL fail on the tracked process, the whole
termination attempt is performed exactly once — it is not retried up to
3 times (that retry loop exists only in `handle_stop_request`). -/
theorem signal_teardown_not_retried :
    (signal_handler_iteration envFail stActive).1
      = [Event.restoreRules, Event.terminate 7, Event.forceKill 7] ∧
    countTerminations (signal_handler_iteration envFail stActive).1 = 1 :=
  ⟨by decide, by decide⟩

/-- C8 (amended): during signal-triggered teardown the tracked process is
terminated with escalation to a forcible kill on failure, but the whole
attempt happens exactly once (no retry); cleanup failures never block
shutdown and the process exit status is 0 regardless of the outcome. -/
theorem signal_teardown_single_attempt (env : Env) (st : DaemonState)
    (active : ActiveServer) (h : st.active_server = some active) :
    countTerminations (signal_handler_iteration env st).1 = 1 ∧
    (env.term_ok active.pid = false →
        Event.forceKill active.pid ∈ (signal_handler_iteration env st).1) ∧
    (signal_handler_iteration env st).2 = 0 := by
  refine ⟨?_, ?_, rfl⟩
  · unfold signal_handler_iteration cleanup_vpn_process countTerminations
    rw [h]
    cases ht : env.term_ok active.pid <;> cases hk : env.kill_ok active.pid <;>
      simp [ht, hk]
  · intro htf
    unfold signal_handler_iteration cleanup_vpn_process
    rw [h]
    cases hk : env.kill_ok active.pid <;> simp [htf, hk]

/-- C8 witness: concrete failing teardown — one attempt, escalated, exit 0. -/
theorem signal_teardown_single_attempt_witness :
    countTerminations (signal_handler_iteration envFail stActive).1 = 1 ∧
    Event.forceKill 7 ∈ (signal_handler_iteration envFail stActive).1 ∧
    (signal_handler_iteration envFail stActive).2 = 0 :=
  have h := signal_teardown_single_attempt envFail stActive ⟨7, sampleServer, .udp⟩ rfl
  ⟨h.1, h.2.1 rfl, h.2.2⟩

/-- C2: the killswitch backs up the pre-existing ruleset only when no
backup file exists, never overwrites an existing backup, and enabling
twice without a restore leaves the first backup's content unchanged. -/
theorem killswitch_backup_preserved (s1 s2 a1 a2 : Bool) (cur1 cur2 : String) (fs : Fs) :
    (∀ b, fs.backup = some b → (killswitch_enable s1 a1 cur1 fs).1.backup = some b) ∧
    (fs.backup = none → (killswitch_enable true a1 cur1 fs).1.backup = some cur1) ∧
    (fs.backup = none →
        (killswitch_enable s2 a2 cur2 (killswitch_enable true a1 cur1 fs).1).1.backup
          = some cur1) := by
  refine ⟨?_, ?_, ?_⟩
  · intro b hb
    cases a1 <;> simp [killswitch_enable, Iptables.backup, hb]
  · intro hn
    cases a1 <;> simp [killswitch_enable, Iptables.backup, hn]
  · intro hn
    have e1 : (killswitch_enable true a1 cur1 fs).1.backup = some cur1 := by
      cases a1 <;> simp [killswitch_enable, Iptables.backup, hn]
    generalize (killswitch_enable true a1 cur1 fs).1 = fs1 at e1 ⊢
    cases s2 <;> cases a2 <;> simp [killswitch_enable, Iptables.backup, e1]

/-- C2 witness: enabling twice starting from no backup keeps the first
dump's content. -/
theorem killswitch_backup_preserved_witness :
    (killswitch_enable true true "save2"
        (killswitch_enable true true "save1" ⟨none⟩).1).1.backup = some "save1" :=
  (killswitch_backup_preserved true true true true "save1" "save2" ⟨none⟩).2.2 rfl

/-- C3: evaluating `Request::deserialize` at the failing input
`connect:server1:bogus`: the unrecognized protocol text hits
`.expect("valid protocol")` — a panic that aborts the daemon — instead
of the decode error the specification requires. -/
theorem deserialize_unknown_protocol_crashes :
    Request.deserialize "connect:server1:bogus" = .crash "valid protocol" := by decide

/-- Where decoding can panic: for every input, `Request::deserialize`
returns a request or an error, except a `connect` message with exactly
two argument fields whose protocol text is unrecognized, which panics. -/
theorem deserialize_classified (s : String) :
    (∃ r, Request.deserialize s = .ok r) ∨ (∃ m, Request.deserialize s = .err m) ∨
    (∃ id pr, splitMessage s = ["connect", id, pr] ∧ Protocol.from_str pr = none ∧
      Request.deserialize s = .crash "valid protocol") := by
  rcases hsp : splitMessage s with _ | ⟨command, args⟩
  · exact absurd hsp (splitMessage_ne_nil s)
  · by_cases h1 : command = "status"
    · exact Or.inl ⟨.status, by simp [Request.deserialize, hsp, h1]⟩
    · by_cases h2 : command = "disconnect"
      · exact Or.inl ⟨.disconnect, by simp [Request.deserialize, hsp, h1, h2]⟩
      · by_cases h3 : command = "connect"
        · rcases args with _ | ⟨a, _ | ⟨b, _ | ⟨c, rest⟩⟩⟩
          · exact Or.inr (Or.inl ⟨"incorrect arguments",
              by simp [Request.deserialize, hsp, h1, h2, h3]⟩)
          · exact Or.inr (Or.inl ⟨"incorrect arguments",
              by simp [Request.deserialize, hsp, h1, h2, h3]⟩)
          · rcases hp : Protocol.from_str b with _ | p
            · refine Or.inr (Or.inr ⟨a, b, ?_, hp, ?_⟩)
              · rw [h3]
              · simp [Request.deserialize, hsp, h1, h2, h3, hp]
            · exact Or.inl ⟨.connect a p, by simp [Request.deserialize, hsp, h1, h2, h3, hp]⟩
          · exact Or.inr (Or.inl ⟨"incorrect arguments",
              by simp [Request.deserialize, hsp, h1, h2, h3]⟩)
        · by_cases h4 : command = "killswitch"
          · rcases args with _ | ⟨a, _ | ⟨b, rest⟩⟩
            · exact Or.inr (Or.inl ⟨"incorrect arguments",
                by simp [Request.deserialize, hsp, h1, h2, h3, h4]⟩)
            · by_cases ht : a = "true"
              · exact Or.inl ⟨.killswitch true,
                  by simp [Request.deserialize, hsp, h1, h2, h3, h4, ht]⟩
              · by_cases hf : a = "false"
                · exact Or.inl ⟨.killswitch false,
                    by simp [Request.deserialize, hsp, h1, h2, h3, h4, ht, hf]⟩
                · exact Or.inr (Or.inl ⟨"incorrect arguments",
                    by simp [Request.deserialize, hsp, h1, h2, h3, h4, ht, hf]⟩)
            · exact Or.inr (Or.inl ⟨"incorrect arguments",
                by simp [Request.deserialize, hsp, h1, h2, h3, h4]⟩)
          · exact Or.inr (Or.inl ⟨"no command matched",
              by simp [Request.deserialize, hsp, h1, h2, h3, h4]⟩)

/-- C4 counterexample: a server id that contains the (unescaped) `:`
delimiter breaks the encode/decode round trip. -/
theorem roundtrip_fails_on_colon_id :
    Request.deserialize (Request.serialize (.connect "a:b" .udp))
      ≠ .ok (.connect "a:b" .udp) := by decide

/-- C4 (amended): decoding the encoding of a request returns it exactly,
for every request whose connect server id does not contain the `:`
delimiter (the spec's documented, unenforced constraint). -/
theorem request_roundtrip (r : Request) (h : r.delimiterFree) :
    Request.deserialize (Request.serialize r) = .ok r := by
  cases r with
  | status => decide
  | disconnect => decide
  | killswitch e => cases e <;> decide
  | connect id p =>
    have hp : ':' ∉ (Protocol.render p).data := by cases p <;> decide
    show Request.deserialize ("connect:" ++ id ++ ":" ++ p.render) = _
    unfold Request.deserialize
    rw [splitMessage_connect id p.render h hp]
    cases p <;> simp [Protocol.from_str, Protocol.render, strLower, asciiLower]

/-- C4 witness: the round trip at a concrete connect request. -/
theorem request_roundtrip_witness :
    Request.deserialize (Request.serialize (.connect "server1" .udp))
      = .ok (.connect "server1" .udp) :=
  request_roundtrip (.connect "server1" .udp) (show ':' ∉ "server1".data by decide)

theorem length_flatten_from_ip (ips : List Ipv4Addr) :
    ((ips.map Remote.from_ip).flatten).length = 5 * ips.length := by
  induction ips with
  | nil => simp
  | cons ip tl ih =>
    simp only [List.map_cons, List.flatten_cons, List.length_append, ih, List.length_cons]
    simp [Remote.from_ip, DEFAULT_PORTS]
    omega

/-- C5 counterexample: for a one-address server and TCP, the generated
endpoint list (5 endpoints — the fixed `DEFAULT_PORTS` list) is not the
cross product with TCP's own 3-element default port list that the
specification describes. -/
theorem remotes_not_per_protocol :
    (create_config sampleServer .tcp (some "/etc/protonvpn/creds") none).toOption.map
        ConfigTemplate.remotes
      ≠ some (specEndpointList sampleServer .tcp) := by decide

/-- C5 (amended): the endpoint list of every generated configuration is
the full cross product of the server's entry addresses with the single
fixed, ordered five-port list `DEFAULT_PORTS`, regardless of the chosen
protocol — five endpoints per entry address. -/
theorem create_config_remotes_fixed_ports (server : LogicalServer) (protocol : Protocol)
    (cp : String) (ur : Option String) (cfg : ConfigTemplate)
    (h : create_config server protocol (some cp) ur = .ok cfg) :
    cfg.remotes
      = (server.entry_ips.map
          (fun ip => DEFAULT_PORTS.map (fun port => Remote.mk ip port))).flatten ∧
    cfg.remotes.length = 5 * server.entry_ips.length := by
  have hc : cfg =
      { remotes := (server.entry_ips.map Remote.from_ip).flatten,
        protocol := protocol, credentials_path := cp,
        update_resolv_conf := ur } := by
    simp [create_config] at h
    exact h.symm
  subst hc
  refine ⟨rfl, length_flatten_from_ip server.entry_ips⟩

/-- C5 witness: the concrete sample configuration. -/
theorem create_config_remotes_fixed_ports_witness :
    sampleConfig.remotes
      = (sampleServer.entry_ips.map
          (fun ip => DEFAULT_PORTS.map (fun port => Remote.mk ip port))).flatten ∧
    sampleConfig.remotes.length = 5 * sampleServer.entry_ips.length :=
  create_config_remotes_fixed_ports sampleServer .udp "/etc/protonvpn/creds" none
    sampleConfig (by decide)

end ProtonVPN
